import Mathlib

/-!
Shallow embedding of `src/server.go` of the mongonet repository: the
response framer (`Session.RespondToCommand`, `Session.RespondWithError`,
`Session.RespondToCommandMakeBSON`) and the lifecycle manager
(`Server.Run`, `Server.Close`).

I/O effects are made explicit: instead of writing frames to a connection,
the respond functions return the list of frames written together with the
Go-level error they return; `Server.Run` is modelled as a function of the
external events it reacts to (certificate loading results, the listen
result, and the stream of accept-loop events), returning a record of the
observable lifecycle effects (values sent on the init channel, whether the
done channel was closed, the returned error).
-/

/-- A Go `interface\x7b\x7d` value as it can appear in the variadic argument
list of `RespondToCommandMakeBSON` or as a BSON element value: a string, an
int, or some other (non-string) value identified by a tag. The source only
distinguishes strings (the type assertion `args[idx].(string)`) from
everything else. -/
inductive GoValue
  | vstr (s : String)
  | vint (n : Int)
  | vother (tag : Nat)
deriving DecidableEq

/-- `bson.D`: an ordered list of name/value document elements
(`bson.DocElem`). -/
abbrev BsonD : Type := List (String × GoValue)

/-- Modelled from the spec: the document codec converts an ordered
name/value sequence into an opaque, immutable, wire-ready document. We
model the wire-ready document as a wrapper around the ordered sequence it
was converted from (`SimpleBSON` lives outside `src/`). -/
structure SimpleBSON where
  doc : BsonD
deriving DecidableEq

/-- Modelled from the spec: the codec conversion `SimpleBSONConvert`
(outside `src/`). The spec gives it no failure condition on ordered
name/value sequences, so the model always succeeds; the `Except` shape
mirrors the `(SimpleBSON, error)` signature the call sites in
`src/server.go` check. -/
def SimpleBSONConvert (d : BsonD) : Except String SimpleBSON :=
  Except.ok ⟨d⟩

/-- Modelled from the spec: the constant empty-document value
`SimpleBSONEmpty()` (outside `src/`). -/
def SimpleBSONEmpty : SimpleBSON := ⟨[]⟩

/-- Modelled from the spec: the message header layout, `payload length,
sender-assigned request id, correlation id referencing the request being
replied to, opcode` (the `MessageHeader` struct lives outside `src/`;
`src/server.go` builds it positionally in exactly this field order). -/
structure MessageHeader where
  size : Int
  requestID : Int
  responseTo : Int
  opCode : Int
deriving DecidableEq

/-- Modelled from the wire-protocol opcode constants referenced by
`src/server.go` (defined outside `src/`); the numeric values are the
standard MongoDB wire protocol ones, and the claims depend only on their
distinctness. -/
def OP_REPLY : Int := 1

def OP_UPDATE : Int := 2001

def OP_INSERT : Int := 2002

def OP_QUERY : Int := 2004

def OP_GET_MORE : Int := 2005

def OP_DELETE : Int := 2006

def OP_COMMAND : Int := 2010

def OP_COMMAND_REPLY : Int := 2011

def OP_MSG : Int := 2013

/-- A request `Message` as consumed by the respond paths: the only part of
the interface they consult is `Header()`. -/
structure Message where
  header : MessageHeader
deriving DecidableEq

/-- `ReplyMessage` (OP_REPLY frame): header, flags (error bit), cursor id,
starting-from, number returned, documents. Field order follows the
positional construction in `src/server.go`. -/
structure ReplyMessage where
  header : MessageHeader
  flags : Int
  cursorID : Int
  startingFrom : Int
  numberReturned : Int
  docs : List SimpleBSON
deriving DecidableEq

/-- `CommandReplyMessage` (OP_COMMAND_REPLY frame): header, main command
reply document, metadata document, output documents. -/
structure CommandReplyMessage where
  header : MessageHeader
  commandReply : SimpleBSON
  metadata : SimpleBSON
  outputDocs : List SimpleBSON
deriving DecidableEq

/-- A section of an OP_MSG frame; `src/server.go` only ever builds a
`BodySection` wrapping one document. -/
inductive MessageMessageSection
  | bodySection (body : SimpleBSON)
deriving DecidableEq

/-- `MessageMessage` (OP_MSG frame): header, flag bits, sections. -/
structure MessageMessage where
  header : MessageHeader
  flagBits : Int
  sections : List MessageMessageSection
deriving DecidableEq

/-- One complete outgoing wire frame: any of the three reply frame shapes
`src/server.go` constructs. -/
inductive WireMessage
  | reply (m : ReplyMessage)
  | commandReply (m : CommandReplyMessage)
  | msg (m : MessageMessage)
deriving DecidableEq

/-- The header of an outgoing wire frame. -/
def WireMessage.header : WireMessage → MessageHeader
  | .reply m => m.header
  | .commandReply m => m.header
  | .msg m => m.header

/-- A Go-level error value as returned by the respond paths: either the
sentinel `ErrUnknownOpcode` or an error built from a message string. -/
inductive GoError
  | unknownOpcode
  | errMsg (s : String)
deriving DecidableEq

/-- `var ErrUnknownOpcode = errors.New("unknown opcode")`. -/
def ErrUnknownOpcode : GoError := GoError.unknownOpcode

/-- Modelled from the spec: `SendMessage(message, connection) -> error`
(outside `src/`): one call writes one complete frame, never interleaved
with another. The model records the written frame and reports success;
connection I/O failure is external to this core. -/
def SendMessage (m : WireMessage) : List WireMessage × Option GoError :=
  ([m], none)

/-- `Session.RespondToCommand` (src/server.go lines 135-190): dispatch on
the request's opcode, returning the frames written to the connection and
the Go error returned to the caller. -/
def RespondToCommand (clientMessage : Message) (doc : SimpleBSON) :
    List WireMessage × Option GoError :=
  let op := clientMessage.header.opCode
  if op = OP_QUERY then
    SendMessage (WireMessage.reply
      ⟨⟨0, 17, clientMessage.header.requestID, OP_REPLY⟩, 0, 0, 0, 1, [doc]⟩)
  else if op = OP_INSERT ∨ op = OP_UPDATE ∨ op = OP_DELETE then
    ([], none)
  else if op = OP_COMMAND then
    SendMessage (WireMessage.commandReply
      ⟨⟨0, 17, clientMessage.header.requestID, OP_COMMAND_REPLY⟩,
        doc, SimpleBSONEmpty, []⟩)
  else if op = OP_MSG then
    SendMessage (WireMessage.msg
      ⟨⟨0, 17, clientMessage.header.requestID, OP_MSG⟩, 0,
        [MessageMessageSection.bodySection doc]⟩)
  else
    ([], some ErrUnknownOpcode)

/-- The error argument of `RespondWithError` as the source case-analyses
it: the nil error, an error implementing the `MongoError` interface (whose
`ToBSON()` result we carry directly), or a plain error with a message
(`err.Error()`). -/
inductive ErrArg
  | nilErr
  | mongoError (d : BsonD)
  | plain (msg : String)
deriving DecidableEq

/-- The `errBSON` computation of `RespondWithError` (src/server.go lines
195-202): nil error gives `ok 1`; a `MongoError` gives its own `ToBSON()`
document; any other error gives `ok 0` with `errmsg` set to the error's
message. -/
def errBSONof : ErrArg → BsonD
  | .nilErr => [("ok", GoValue.vint 1)]
  | .mongoError d => d
  | .plain m => [("ok", GoValue.vint 0), ("errmsg", GoValue.vstr m)]

/-- The opcode dispatch of `RespondWithError` (src/server.go lines
209-265), applied to the already-converted error document. Note it handles
`OP_QUERY, OP_GET_MORE` together (unlike `RespondToCommand`, which handles
only `OP_QUERY`), and leaves the legacy error-flag bit unset. -/
def RespondWithErrorGivenDoc (clientMessage : Message) (doc : SimpleBSON) :
    List WireMessage × Option GoError :=
  let op := clientMessage.header.opCode
  if op = OP_QUERY ∨ op = OP_GET_MORE then
    SendMessage (WireMessage.reply
      ⟨⟨0, 17, clientMessage.header.requestID, OP_REPLY⟩, 0, 0, 0, 1, [doc]⟩)
  else if op = OP_INSERT ∨ op = OP_UPDATE ∨ op = OP_DELETE then
    ([], none)
  else if op = OP_COMMAND then
    SendMessage (WireMessage.commandReply
      ⟨⟨0, 17, clientMessage.header.requestID, OP_COMMAND_REPLY⟩,
        doc, SimpleBSONEmpty, []⟩)
  else if op = OP_MSG then
    SendMessage (WireMessage.msg
      ⟨⟨0, 17, clientMessage.header.requestID, OP_MSG⟩, 0,
        [MessageMessageSection.bodySection doc]⟩)
  else
    ([], some ErrUnknownOpcode)

/-- `Session.RespondWithError` (src/server.go lines 192-266): map the
error argument to a document, convert it, then dispatch on the opcode. -/
def RespondWithError (clientMessage : Message) (err : ErrArg) :
    List WireMessage × Option GoError :=
  match SimpleBSONConvert (errBSONof err) with
  | .error e => ([], some (GoError.errMsg e))
  | .ok doc => RespondWithErrorGivenDoc clientMessage doc

/-- The document-building loop of `RespondToCommandMakeBSON`
(src/server.go lines 110-122): walk the argument list two at a time,
require each name position to be a string, accumulate the element list and
whether a name equal to `"ok"` was seen. Called only on even-length lists
(the length parity is checked first in the source). -/
def buildDoc : List GoValue → Except GoError (BsonD × Bool)
  | [] => Except.ok ([], false)
  | GoValue.vstr name :: v :: rest =>
    match buildDoc rest with
    | .error e => .error e
    | .ok (d, gotOk) =>
      .ok ((name, v) :: d, (name == "ok") || gotOk)
  | _ => Except.error (GoError.errMsg "got a non string for bson name")

/-- The document-assembly part of `Session.RespondToCommandMakeBSON`
(src/server.go lines 106-126): reject odd-length argument lists, build the
element list, and append `("ok", 1)` unless a name `"ok"` was given. -/
def makeBSONDoc (args : List GoValue) : Except GoError BsonD :=
  if args.length % 2 = 1 then
    Except.error (GoError.errMsg
      ("magic bson has to be even # of args, got " ++ toString args.length))
  else
    match buildDoc args with
    | .error e => .error e
    | .ok (d, gotOk) =>
      .ok (if gotOk then d else d ++ [("ok", GoValue.vint 1)])

/-- `Session.RespondToCommandMakeBSON` (src/server.go lines 105-133):
assemble the document, convert it, then delegate to `RespondToCommand`.
Any assembly or conversion failure is returned with nothing written. -/
def RespondToCommandMakeBSON (clientMessage : Message) (args : List GoValue) :
    List WireMessage × Option GoError :=
  match makeBSONDoc args with
  | .error e => ([], some e)
  | .ok d =>
    match SimpleBSONConvert d with
    | .error e => ([], some (GoError.errMsg e))
    | .ok doc2 => RespondToCommand clientMessage doc2

/-- `SSLPair`: a certificate/key file pair from the configuration. -/
structure SSLPair where
  certFile : String
  keyFile : String
deriving DecidableEq

/-- `ServerConfig` (src/server.go lines 14-26), restricted to the fields
`Server.Run` consults. -/
structure ServerConfig where
  bindHost : String
  bindPort : Int
  useSSL : Bool
  sslKeys : List SSLPair
  minTlsVersion : Nat
  tcpKeepAlivePeriod : Int
deriving DecidableEq

/-- The result of one background accept attempt, `(conn net.Conn, err
error)`: a successfully accepted connection (identified by a tag) or an
accept error with its message. -/
inductive AcceptResult
  | okConn (connID : Nat)
  | err (msg : String)
deriving DecidableEq

/-- One event the `select` in the accept loop can wake up on: the
shutdown-request channel (`killChan`) becoming ready, or a background
accept attempt delivering its result. -/
inductive LoopEvent
  | kill
  | accepted (r : AcceptResult)
deriving DecidableEq

/-- Go `fmt` rendering of an error value under the `%s` verb: a nil error
interface value prints as `%!s(<nil>)`, a non-nil error prints its
message. -/
def goFmtErr : Option String → String
  | none => "%!s(<nil>)"
  | some s => s

/-- The observable lifecycle effects of one `Server.Run` execution:
the values delivered on the init channel in order (`none` is the nil
ready signal), whether the init channel was closed (the deferred
`close(s.initChan)`), whether the done channel was closed (the deferred
`close(s.doneChan)`), the sessions spawned, and the returned error
(`none` means the model ran out of events with the loop still blocked). -/
structure RunOutcome where
  initSent : List (Option String)
  initClosed : Bool
  doneClosed : Bool
  spawned : List Nat
  result : Option (Option String)
deriving DecidableEq

/-- The accept loop of `Server.Run` (src/server.go lines 324-358), driven
by a finite event list. `listenErrVar` is the value of the function-scope
variable `err` when the loop is entered (the result of `net.Listen`,
necessarily nil here since the loop only runs after a successful listen);
the accept-error branch formats THIS variable — not
`connectionEvent.err` — exactly as the source does. Returns the spawned
session tags, whether the loop returned (closing the done channel via the
deferred `close(s.doneChan)`), and the returned error. -/
def acceptLoop (listenErrVar : Option String) :
    List LoopEvent → List Nat × Bool × Option (Option String)
  | [] => ([], false, none)
  | LoopEvent.kill :: _ => ([], true, some none)
  | LoopEvent.accepted (AcceptResult.err _) :: _ =>
    ([], true, some (some ("could not accept in proxy: " ++ goFmtErr listenErrVar)))
  | LoopEvent.accepted (AcceptResult.okConn c) :: rest =>
    let (sp, d, r) := acceptLoop listenErrVar rest
    (c :: sp, d, r)

/-- The certificate-loading loop of `Server.Run` (src/server.go lines
285-294): load every configured pair, stopping at the first failure with a
wrapping message. `loadX509` is the external `tls.LoadX509KeyPair`. -/
def loadCerts (loadX509 : SSLPair → Except String Unit) :
    List SSLPair → Except String Unit
  | [] => Except.ok ()
  | p :: rest =>
    match loadX509 p with
    | .error e =>
      .error ("cannot LoadX509KeyPair from " ++ p.certFile ++ " "
        ++ p.keyFile ++ " " ++ e)
    | .ok () => loadCerts loadX509 rest

/-- `Server.Run` (src/server.go lines 270-359), as a function of the
configuration and the external events: certificate-loading outcomes, the
`net.Listen` outcome, and the accept-loop event stream. The deferred
`close(s.initChan)` runs on every exit path, so `initClosed` is always
true on return; the deferred `close(s.doneChan)` is registered only after
a successful listen (line 314), so `doneClosed` stays false on every
startup-failure path. -/
def ServerRun (cfg : ServerConfig) (loadX509 : SSLPair → Except String Unit)
    (listenRes : Except String Unit) (events : List LoopEvent) : RunOutcome :=
  if cfg.useSSL ∧ cfg.sslKeys = [] then
    { initSent := [some "no ssl keys configured"], initClosed := true,
      doneClosed := false, spawned := [],
      result := some (some "no ssl keys configured") }
  else
    match (if cfg.useSSL then loadCerts loadX509 cfg.sslKeys else .ok ()) with
    | .error e =>
      { initSent := [some e], initClosed := true, doneClosed := false,
        spawned := [], result := some (some e) }
    | .ok () =>
      match listenRes with
      | .error e =>
        { initSent := [some ("cannot start listening in proxy: " ++ e)],
          initClosed := true, doneClosed := false, spawned := [],
          result := some (some ("cannot start listening in proxy: " ++ e)) }
      | .ok () =>
        let (sp, d, r) := acceptLoop none events
        { initSent := [none], initClosed := true, doneClosed := d,
          spawned := sp, result := r }

/-- `Server.Close` (src/server.go lines 367-370) closes the
shutdown-request channel and then blocks on `<-s.doneChan`. Once `Run` has
returned, `Close` completes if and only if `Run` closed the done
channel — nothing else ever closes it. -/
def closeCompletesCleanly (o : RunOutcome) : Bool := o.doneClosed

/-- Flatten an ordered list of name/value pairs into the variadic argument
list `name1, value1, name2, value2, ...` expected by
`RespondToCommandMakeBSON`; such a list is even-length with a string at
every even (name) position. Used to state the claims about valid argument
lists. -/
def flattenPairs : BsonD → List GoValue
  | [] => []
  | (n, v) :: rest => GoValue.vstr n :: v :: flattenPairs rest

/-- The spec-side error-to-document mapping, written from the spec's
words: nil maps to `ok 1`; an error with the error-to-document capability
maps to its own document verbatim; any other error maps to `ok 0` with
`errmsg` carrying the error's message. Stated separately from the
source-derived `errBSONof` so the two can be compared. -/
def specErrorDocument : ErrArg → BsonD
  | .nilErr => [("ok", GoValue.vint 1)]
  | .mongoError d => d
  | .plain m => [("ok", GoValue.vint 0), ("errmsg", GoValue.vstr m)]

lemma flattenPairs_length (pairs : BsonD) :
    (flattenPairs pairs).length = 2 * pairs.length := by
  induction pairs with
  | nil => rfl
  | cons p rest ih =>
    cases p
    simp [flattenPairs, ih]
    omega

lemma buildDoc_flattenPairs (pairs : BsonD) :
    buildDoc (flattenPairs pairs)
      = Except.ok (pairs, pairs.any (fun p => p.1 == "ok")) := by
  induction pairs with
  | nil => rfl
  | cons p rest ih =>
    cases p
    simp [flattenPairs, buildDoc, ih, List.any_cons]

lemma makeBSONDoc_flattenPairs (pairs : BsonD) :
    makeBSONDoc (flattenPairs pairs)
      = Except.ok (if pairs.any (fun p => p.1 == "ok") then pairs
          else pairs ++ [("ok", GoValue.vint 1)]) := by
  unfold makeBSONDoc
  rw [flattenPairs_length]
  simp [Nat.mul_mod_right, buildDoc_flattenPairs pairs]

lemma buildDoc_ok_names :
    ∀ (args : List GoValue) (d : BsonD) (g : Bool),
      buildDoc args = Except.ok (d, g) →
      ∀ (i : Nat) (hi : i < args.length), i % 2 = 0 →
        ∃ s, args.get ⟨i, hi⟩ = GoValue.vstr s
  | [], _, _, _, i, hi => by simp at hi
  | GoValue.vstr n :: v :: rest, d, g, h, i, hi => by
    intro he
    match i with
    | 0 => exact ⟨n, rfl⟩
    | 1 => omega
    | (k + 2) =>
      simp only [buildDoc] at h
      cases hrest : buildDoc rest with
      | error e => rw [hrest] at h; cases h
      | ok p =>
        obtain ⟨d0, g0⟩ := p
        have hk : k < rest.length := by
          simp only [List.length_cons] at hi
          omega
        have hke : k % 2 = 0 := by omega
        exact buildDoc_ok_names rest d0 g0 hrest k hk hke
  | GoValue.vint n :: v :: rest, d, g, h, i, hi => by cases h
  | GoValue.vother t :: v :: rest, d, g, h, i, hi => by cases h
  | [GoValue.vstr n], d, g, h, i, hi => by cases h
  | [GoValue.vint n], d, g, h, i, hi => by cases h
  | [GoValue.vother t], d, g, h, i, hi => by cases h

/-- C5: for every even-length argument list in which every even-indexed
element is a string (encoded as the flattening of a pair list),
`RespondToCommandMakeBSON` assembles a document that contains every given
name/value pair, contains the appended element `("ok", 1)` iff none of the
given names equals `"ok"`, and hands exactly that document on to
`RespondToCommand`. -/
theorem makeBSON_valid_pairs (m : Message) (pairs : BsonD) :
    ∃ d, makeBSONDoc (flattenPairs pairs) = Except.ok d ∧
      (∀ p ∈ pairs, p ∈ d) ∧
      ((∀ p ∈ pairs, p.1 ≠ "ok") ↔ d = pairs ++ [("ok", GoValue.vint 1)]) ∧
      RespondToCommandMakeBSON m (flattenPairs pairs)
        = RespondToCommand m ⟨d⟩ := by
  refine ⟨_, makeBSONDoc_flattenPairs pairs, ?_, ?_, ?_⟩
  · by_cases h : pairs.any (fun p => p.1 == "ok")
    · simp only [h, if_true]
      exact fun p hp => hp
    · simp only [h, if_false]
      exact fun p hp => List.mem_append_left _ hp
  · by_cases h : pairs.any (fun p => p.1 == "ok")
    · simp only [h, if_true]
      constructor
      · intro hall
        obtain ⟨p, hp, hok⟩ := List.any_eq_true.mp h
        exact absurd (eq_of_beq hok) (hall p hp)
      · intro heq
        have : pairs.length = pairs.length + 1 := by
          conv_lhs => rw [heq]
          simp
        omega
    · simp only [h, if_false]
      constructor
      · intro _
        rfl
      · intro _ p hp hok
        have : pairs.any (fun p => p.1 == "ok") = true :=
          List.any_eq_true.mpr ⟨p, hp, by simp [hok]⟩
        exact absurd this h
  · simp only [RespondToCommandMakeBSON, makeBSONDoc_flattenPairs pairs,
      SimpleBSONConvert]

/-- C6: for every argument list of odd length, and for every argument list
with a non-string value at some even (name) position,
`RespondToCommandMakeBSON` returns an error and writes no frame. -/
theorem makeBSON_invalid_args (m : Message) (args : List GoValue)
    (h : args.length % 2 = 1 ∨
      ∃ (i : Nat) (hi : i < args.length), i % 2 = 0 ∧
        ∀ s, args.get ⟨i, hi⟩ ≠ GoValue.vstr s) :
    ∃ e, RespondToCommandMakeBSON m args = ([], some e) := by
  by_cases hlen : args.length % 2 = 1
  · exact ⟨GoError.errMsg
      ("magic bson has to be even # of args, got " ++ toString args.length),
      by simp [RespondToCommandMakeBSON, makeBSONDoc, hlen]⟩
  · rcases h with h | ⟨i, hi, hev, hns⟩
    · exact absurd h hlen
    · cases hb : buildDoc args with
      | error e =>
        exact ⟨e, by simp [RespondToCommandMakeBSON, makeBSONDoc, hlen, hb]⟩
      | ok p =>
        obtain ⟨d, g⟩ := p
        obtain ⟨s, hs⟩ := buildDoc_ok_names args d g hb i hi hev
        exact absurd hs (hns s)

/-- Witness for C6 at the odd-length list `[3]`. -/
theorem makeBSON_invalid_args_witness :
    ∃ e, RespondToCommandMakeBSON ⟨⟨0, 5, 0, OP_QUERY⟩⟩ [GoValue.vint 3]
      = ([], some e) :=
  makeBSON_invalid_args ⟨⟨0, 5, 0, OP_QUERY⟩⟩ [GoValue.vint 3]
    (Or.inl (by decide))

/-- C7: `RespondWithError` maps its error argument to the reply document
exactly as the spec states it — nil to `ok 1`, an error with the
error-to-document capability to its own document verbatim, any other error
to `ok 0` with `errmsg` — and then dispatches on the opcode with that
document. -/
theorem RespondWithError_error_mapping (m : Message) (e : ErrArg) :
    RespondWithError m e = RespondWithErrorGivenDoc m ⟨specErrorDocument e⟩ := by
  cases e <;> rfl

/-- C10: for every valid (even-length, all-string-name) argument list, the
assembled document lists the given pairs in argument order and, when no
given name equals `"ok"`, appends `("ok", 1)` last; for the empty argument
list the document is exactly `[("ok", 1)]`. -/
theorem makeBSONDoc_order (pairs : BsonD) :
    makeBSONDoc (flattenPairs pairs)
      = Except.ok (if pairs.any (fun p => p.1 == "ok") then pairs
          else pairs ++ [("ok", GoValue.vint 1)]) ∧
    makeBSONDoc (flattenPairs []) = Except.ok [("ok", GoValue.vint 1)] :=
  ⟨makeBSONDoc_flattenPairs pairs, by rfl⟩

/-- Counterexample to C1: on an `OP_GET_MORE` request the success path
`RespondToCommand` does not produce a single-cursor reply frame — it
writes nothing and returns `ErrUnknownOpcode` (its switch has no
`OP_GET_MORE` case, unlike the one in `RespondWithError`). -/
theorem RespondToCommand_getMore_counterexample :
    RespondToCommand ⟨⟨0, 7, 0, OP_GET_MORE⟩⟩ ⟨[]⟩
      = ([], some ErrUnknownOpcode) := by
  rfl

/-- C1 (amended): on an `OP_QUERY` request both respond paths produce a
single-cursor reply frame (`OP_REPLY`, flags 0 so the error bit is unset,
cursor id 0, NumberReturned 1, one document); on an `OP_GET_MORE` request
only `RespondWithError` does, while `RespondToCommand` writes nothing and
returns the unknown-opcode error. -/
theorem respond_query_reply_frame (m : Message) (d : SimpleBSON) (e : ErrArg) :
    (m.header.opCode = OP_QUERY →
      RespondToCommand m d
        = ([WireMessage.reply
            ⟨⟨0, 17, m.header.requestID, OP_REPLY⟩, 0, 0, 0, 1, [d]⟩], none) ∧
      RespondWithError m e
        = ([WireMessage.reply
            ⟨⟨0, 17, m.header.requestID, OP_REPLY⟩, 0, 0, 0, 1,
              [⟨errBSONof e⟩]⟩], none)) ∧
    (m.header.opCode = OP_GET_MORE →
      RespondToCommand m d = ([], some ErrUnknownOpcode) ∧
      RespondWithError m e
        = ([WireMessage.reply
            ⟨⟨0, 17, m.header.requestID, OP_REPLY⟩, 0, 0, 0, 1,
              [⟨errBSONof e⟩]⟩], none)) := by
  constructor
  · intro h
    constructor
    · simp [RespondToCommand, SendMessage, h]
    · simp [RespondWithError, SimpleBSONConvert, RespondWithErrorGivenDoc,
        SendMessage, h]
  · intro h
    constructor
    · simp [RespondToCommand, SendMessage, h, OP_GET_MORE, OP_QUERY,
        OP_INSERT, OP_UPDATE, OP_DELETE, OP_COMMAND, OP_MSG, ErrUnknownOpcode]
    · simp [RespondWithError, SimpleBSONConvert, RespondWithErrorGivenDoc,
        SendMessage, h]

/-- Witness for C1 (amended) at concrete `OP_QUERY` and `OP_GET_MORE`
requests. -/
theorem respond_query_reply_frame_witness :
    RespondToCommand ⟨⟨0, 5, 0, OP_QUERY⟩⟩ ⟨[]⟩
      = ([WireMessage.reply ⟨⟨0, 17, 5, OP_REPLY⟩, 0, 0, 0, 1, [⟨[]⟩]⟩], none) ∧
    RespondWithError ⟨⟨0, 7, 0, OP_GET_MORE⟩⟩ ErrArg.nilErr
      = ([WireMessage.reply
          ⟨⟨0, 17, 7, OP_REPLY⟩, 0, 0, 0, 1,
            [⟨[("ok", GoValue.vint 1)]⟩]⟩], none) :=
  ⟨((respond_query_reply_frame ⟨⟨0, 5, 0, OP_QUERY⟩⟩ ⟨[]⟩ ErrArg.nilErr).1 rfl).1,
   ((respond_query_reply_frame ⟨⟨0, 7, 0, OP_GET_MORE⟩⟩ ⟨[]⟩ ErrArg.nilErr).2 rfl).2⟩

/-- Counterexample to C3: on an `OP_COMMAND_REPLY` request neither respond
path writes a command-reply frame — both write nothing and return
`ErrUnknownOpcode` (the switches have a case only for `OP_COMMAND`). -/
theorem respond_commandReply_counterexample :
    RespondToCommand ⟨⟨0, 9, 0, OP_COMMAND_REPLY⟩⟩ ⟨[]⟩
      = ([], some ErrUnknownOpcode) ∧
    RespondWithError ⟨⟨0, 9, 0, OP_COMMAND_REPLY⟩⟩ ErrArg.nilErr
      = ([], some ErrUnknownOpcode) := by
  constructor <;> rfl

/-- C3 (amended): on an `OP_COMMAND` request both respond paths write a
command-reply frame whose main document is exactly the provided (resp.
error-derived) document, whose metadata document is the canonical empty
document, and whose output-document list is empty; on an
`OP_COMMAND_REPLY` request both paths write nothing and return the
unknown-opcode error. -/
theorem respond_command_reply_frame (m : Message) (d : SimpleBSON) (e : ErrArg) :
    (m.header.opCode = OP_COMMAND →
      RespondToCommand m d
        = ([WireMessage.commandReply
            ⟨⟨0, 17, m.header.requestID, OP_COMMAND_REPLY⟩,
              d, SimpleBSONEmpty, []⟩], none) ∧
      RespondWithError m e
        = ([WireMessage.commandReply
            ⟨⟨0, 17, m.header.requestID, OP_COMMAND_REPLY⟩,
              ⟨errBSONof e⟩, SimpleBSONEmpty, []⟩], none)) ∧
    (m.header.opCode = OP_COMMAND_REPLY →
      RespondToCommand m d = ([], some ErrUnknownOpcode) ∧
      RespondWithError m e = ([], some ErrUnknownOpcode)) := by
  constructor
  · intro h
    constructor
    · simp [RespondToCommand, SendMessage, h, OP_COMMAND, OP_QUERY,
        OP_INSERT, OP_UPDATE, OP_DELETE]
    · simp [RespondWithError, SimpleBSONConvert, RespondWithErrorGivenDoc,
        SendMessage, h, OP_COMMAND, OP_QUERY, OP_GET_MORE,
        OP_INSERT, OP_UPDATE, OP_DELETE]
  · intro h
    constructor
    · simp [RespondToCommand, SendMessage, h, OP_COMMAND_REPLY, OP_QUERY,
        OP_INSERT, OP_UPDATE, OP_DELETE, OP_COMMAND, OP_MSG, ErrUnknownOpcode]
    · simp [RespondWithError, SimpleBSONConvert, RespondWithErrorGivenDoc,
        SendMessage, h, OP_COMMAND_REPLY, OP_QUERY, OP_GET_MORE,
        OP_INSERT, OP_UPDATE, OP_DELETE, OP_COMMAND, OP_MSG, ErrUnknownOpcode]

/-- Witness for C3 (amended) at concrete `OP_COMMAND` and
`OP_COMMAND_REPLY` requests. -/
theorem respond_command_reply_frame_witness :
    RespondToCommand ⟨⟨0, 5, 0, OP_COMMAND⟩⟩ ⟨[("a", GoValue.vint 2)]⟩
      = ([WireMessage.commandReply
          ⟨⟨0, 17, 5, OP_COMMAND_REPLY⟩,
            ⟨[("a", GoValue.vint 2)]⟩, SimpleBSONEmpty, []⟩], none) ∧
    RespondToCommand ⟨⟨0, 9, 0, OP_COMMAND_REPLY⟩⟩ ⟨[]⟩
      = ([], some ErrUnknownOpcode) :=
  ⟨((respond_command_reply_frame ⟨⟨0, 5, 0, OP_COMMAND⟩⟩
      ⟨[("a", GoValue.vint 2)]⟩ ErrArg.nilErr).1 rfl).1,
   ((respond_command_reply_frame ⟨⟨0, 9, 0, OP_COMMAND_REPLY⟩⟩
      ⟨[]⟩ ErrArg.nilErr).2 rfl).1⟩

/-- C8: on an `OP_INSERT`, `OP_UPDATE`, or `OP_DELETE` request both
respond paths write nothing to the connection and return no error, for
every document and every error argument. -/
theorem respond_write_ops_noop (m : Message) (d : SimpleBSON) (e : ErrArg)
    (h : m.header.opCode = OP_INSERT ∨ m.header.opCode = OP_UPDATE ∨
      m.header.opCode = OP_DELETE) :
    RespondToCommand m d = ([], none) ∧ RespondWithError m e = ([], none) := by
  constructor
  · rcases h with h | h | h <;>
      simp [RespondToCommand, h, OP_QUERY, OP_INSERT, OP_UPDATE, OP_DELETE]
  · rcases h with h | h | h <;>
      simp [RespondWithError, SimpleBSONConvert, RespondWithErrorGivenDoc,
        h, OP_QUERY, OP_GET_MORE, OP_INSERT, OP_UPDATE, OP_DELETE]

/-- Witness for C8 at a concrete `OP_INSERT` request. -/
theorem respond_write_ops_noop_witness :
    RespondToCommand ⟨⟨0, 5, 0, OP_INSERT⟩⟩ ⟨[]⟩ = ([], none) ∧
    RespondWithError ⟨⟨0, 5, 0, OP_INSERT⟩⟩ ErrArg.nilErr = ([], none) :=
  respond_write_ops_noop ⟨⟨0, 5, 0, OP_INSERT⟩⟩ ⟨[]⟩ ErrArg.nilErr (Or.inl rfl)

/-- C9: every frame written by `RespondToCommand` or `RespondWithError`,
for every request, carries a header whose correlation id (`responseTo`,
the third header field) equals the request's request id. -/
theorem respond_responseTo_requestID (m : Message) (d : SimpleBSON)
    (e : ErrArg) (f : WireMessage)
    (h : f ∈ (RespondToCommand m d).1 ∨ f ∈ (RespondWithError m e).1) :
    f.header.responseTo = m.header.requestID := by
  rcases h with h | h
  · simp only [RespondToCommand, SendMessage] at h
    split_ifs at h <;> simp_all [WireMessage.header]
  · simp only [RespondWithError, SimpleBSONConvert,
      RespondWithErrorGivenDoc, SendMessage] at h
    split_ifs at h <;> simp_all [WireMessage.header]

/-- Witness for C9: the frame written for a concrete `OP_QUERY` request
has its correlation id equal to that request's request id (5). -/
theorem respond_responseTo_requestID_witness :
    (WireMessage.reply
      ⟨⟨0, 17, 5, OP_REPLY⟩, 0, 0, 0, 1, [⟨[]⟩]⟩).header.responseTo
      = (Message.mk ⟨0, 5, 0, OP_QUERY⟩).header.requestID :=
  respond_responseTo_requestID ⟨⟨0, 5, 0, OP_QUERY⟩⟩ ⟨[]⟩ ErrArg.nilErr
    (WireMessage.reply ⟨⟨0, 17, 5, OP_REPLY⟩, 0, 0, 0, 1, [⟨[]⟩]⟩)
    (Or.inl (by decide))

/-- C2: with TLS enabled and zero certificate pairs configured,
`Server.Run` returns the "no ssl keys configured" error and delivers it on
the ready signal, but never closes the done channel — `defer
close(s.doneChan)` is registered only after a successful listen — so a
subsequent `Server.Close`, which blocks on the done channel, never
completes. -/
theorem ServerRun_noSSLKeys_doneNeverFires :
    ServerRun ⟨"", 0, true, [], 0, 0⟩ (fun _ => Except.ok ())
        (Except.ok ()) []
      = { initSent := [some "no ssl keys configured"], initClosed := true,
          doneClosed := false, spawned := [],
          result := some (some "no ssl keys configured") } ∧
    closeCompletesCleanly
      (ServerRun ⟨"", 0, true, [], 0, 0⟩ (fun _ => Except.ok ())
        (Except.ok ()) []) = false := by
  constructor <;> rfl

/-- C4: when the background accept attempt fails (here with message
"boom") after a successful listen, the accept loop formats the
function-scope variable `err` — the nil result of `net.Listen` — instead
of `connectionEvent.err`, so the returned error's message is the constant
`could not accept in proxy: %!s(<nil>)` and does not contain the accept
error's message. -/
theorem ServerRun_acceptError_notWrapped :
    (ServerRun ⟨"", 0, false, [], 0, 0⟩ (fun _ => Except.ok ())
        (Except.ok ()) [LoopEvent.accepted (AcceptResult.err "boom")]).result
      = some (some "could not accept in proxy: %!s(<nil>)") ∧
    ¬ ("boom".data <:+: ("could not accept in proxy: %!s(<nil>)").data) := by
  constructor
  · rfl
  · decide
